import Mathlib

/-!
Verification of the CyberBrowser tab registry and Tor proxy supervisor
(shallow embedding of `src/main.py`).

Python strings are modelled as `List Char`, Python dicts as association
lists in insertion order (`alookup` / `ainsert` / `aerase` mirror `d[k]`,
`d[k] = v`, `del d[k]`).  Tab-strip positions are `Int` because the
remapping arithmetic in `on_tab_moved` can produce negative keys.
-/

abbrev PyStr := List Char

/-- The character `{` (written via its code point so it can appear in
search-engine URL templates). -/
def lbrace : Char := Char.ofNat 123

/-- The character `}` (written via its code point). -/
def rbrace : Char := Char.ofNat 125

/-- Python `pat in s` substring test (for the patterns used by the source:
`"."`, `" "`, `"/"`, `".onion"`). -/
def containsSub (pat : PyStr) : PyStr → Bool
  | [] => pat.isEmpty
  | c :: rest => pat.isPrefixOf (c :: rest) || containsSub pat rest

/-- Python `s.startswith(pre)`. -/
def pyStartswith (pre s : PyStr) : Bool := pre.isPrefixOf s

/-- Python `query.replace(" ", "+")` specialised to a single-character
pattern, which is an element-wise map. -/
def replaceSpaces (s : PyStr) : PyStr := s.map (fun c => if c = ' ' then '+' else c)

/-- Characters removed by Python `str.strip()` (space, tab, newline,
carriage return, vertical tab, form feed). -/
def pyWhitespace (c : Char) : Bool :=
  c = ' ' || c = '\t' || c = '\n' || c = '\r' || c = Char.ofNat 11 || c = Char.ofNat 12

/-- Python `s.strip()`. -/
def pyStrip (s : PyStr) : PyStr :=
  ((s.dropWhile pyWhitespace).reverse.dropWhile pyWhitespace).reverse

/-- Python `s.capitalize()`: first character upper-cased, the rest lower-cased. -/
def pyCapitalize : PyStr → PyStr
  | [] => []
  | c :: rest => c.toUpper :: rest.map Char.toLower

/-- Helper for `pySplit`, accumulating the current (reversed) segment. -/
def pySplitAux (sep : Char) : PyStr → PyStr → List PyStr
  | [], cur => [cur.reverse]
  | c :: rest, cur =>
    if c = sep then cur.reverse :: pySplitAux sep rest []
    else pySplitAux sep rest (c :: cur)

/-- Python `s.split(sep)` for a single-character separator (keeps empty
segments, never returns an empty list). -/
def pySplit (sep : Char) (s : PyStr) : List PyStr := pySplitAux sep s []

/-- Python `template.format(arg)` for the templates in the source's config:
one `{}` placeholder and no brace escapes.  Replaces the first `{}`. -/
def pyFormat1 (arg : PyStr) : PyStr → PyStr
  | [] => []
  | [c] => [c]
  | c :: c2 :: rest =>
    if c = lbrace && c2 = rbrace then arg ++ rest
    else c :: pyFormat1 arg (c2 :: rest)

/-! ### Python dicts as association lists (insertion order) -/

/-- Dict read `m.get(k)` / `k in m` test: value at the first matching key. -/
def alookup {α β : Type} [DecidableEq α] : List (α × β) → α → Option β
  | [], _ => none
  | (k, v) :: rest, key => if k = key then some v else alookup rest key

/-- Dict write `m[k] = v`: replaces in place if the key is present,
otherwise appends (matching Python dict insertion order). -/
def ainsert {α β : Type} [DecidableEq α] : List (α × β) → α → β → List (α × β)
  | [], key, val => [(key, val)]
  | (k, v) :: rest, key, val =>
    if k = key then (key, val) :: rest else (k, v) :: ainsert rest key val

/-- Dict delete `del m[k]`. -/
def aerase {α β : Type} [DecidableEq α] : List (α × β) → α → List (α × β)
  | [], _ => []
  | (k, v) :: rest, key => if k = key then rest else (k, v) :: aerase rest key

/-- The loop of `update_tab_title`: first position (in dict iteration order)
whose mapped identity equals `tid`. -/
def findPosition : List (Int × Nat) → Nat → Option Int
  | [], _ => none
  | (k, v) :: rest, tid => if v = tid then some k else findPosition rest tid

/-- Insertion step for `sortByKey`. -/
def insertSortedKey (p : Int × Nat) : List (Int × Nat) → List (Int × Nat)
  | [] => [p]
  | q :: rest => if p.1 ≤ q.1 then p :: q :: rest else q :: insertSortedKey p rest

/-- Python `sorted(m.items())` (keys are distinct, so tie order is moot). -/
def sortByKey (m : List (Int × Nat)) : List (Int × Nat) := m.foldr insertSortedKey []

/-! ### List-index helpers for the Qt tab bar -/

/-- List insertion at a natural index, appending when past the end
(the behaviour of `QTabBar.insertTab`). -/
def insertAtNat {α : Type} : List α → Nat → α → List α
  | l, 0, x => x :: l
  | [], _ + 1, x => [x]
  | a :: l, n + 1, x => a :: insertAtNat l n x

/-- Insertion at an `Int` index (indices used by the source are ≥ 0). -/
def listInsertAt {α : Type} (l : List α) (i : Int) (x : α) : List α :=
  if 0 ≤ i then insertAtNat l i.toNat x else x :: l

/-- `QTabBar.tabText(i)`: `none` for out-of-range indices. -/
def listGetAt {α : Type} (l : List α) (i : Int) : Option α :=
  if 0 ≤ i then l.get? i.toNat else none

/-- `QTabBar.setTabText(i, x)`: a no-op for out-of-range indices. -/
def listSetAt {α : Type} (l : List α) (i : Int) (x : α) : List α :=
  if 0 ≤ i then l.set i.toNat x else l

/-! ### ConfigManager (the fields the modelled code reads) -/

/-- The configuration fields consumed by the modelled operations
(`enable_tor`, `tor_directory`, `search_engines` of
`ConfigManager.default_config`). -/
structure Config where
  enable_tor : Bool
  tor_directory : PyStr
  search_engines : List (PyStr × PyStr)
deriving DecidableEq

/-- The `search_engines` entry of `ConfigManager.default_config`. -/
def default_search_engines : List (PyStr × PyStr) :=
  [ ("Google".toList, "https://www.google.com/search?q=".toList ++ [lbrace, rbrace]),
    ("DuckDuckGo".toList, "https://duckduckgo.com/?q=".toList ++ [lbrace, rbrace]),
    ("Bing".toList, "https://www.bing.com/search?q=".toList ++ [lbrace, rbrace]),
    ("Yahoo".toList, "https://search.yahoo.com/search?p=".toList ++ [lbrace, rbrace]),
    ("Yandex".toList, "https://yandex.com/search/?text=".toList ++ [lbrace, rbrace]),
    ("Searx".toList, "https://searx.org/search?q=".toList ++ [lbrace, rbrace]),
    ("Startpage".toList, "https://www.startpage.com/sp/search?query=".toList ++ [lbrace, rbrace]),
    ("DuckDuckGo Onion".toList, "https://duckduckgogg42ts72.onion/?q=".toList ++ [lbrace, rbrace]),
    ("Ahmia Onion Search".toList, "https://ahmia.fi/search/?q=".toList ++ [lbrace, rbrace]) ]

/-- The default configuration (the modelled fields of `default_config`). -/
def defaultConfig : Config :=
  { enable_tor := false, tor_directory := [], search_engines := default_search_engines }

/-- `ConfigManager.get_search_url`: use the engine's template when present,
falling back to the built-in Google URL. -/
def get_search_url (cfg : Config) (engine_name query : PyStr) : PyStr :=
  match alookup cfg.search_engines engine_name with
  | some template => pyFormat1 (replaceSpaces query) template
  | none => "https://www.google.com/search?q=".toList ++ replaceSpaces query

/-- `os.path.join(d, f)` with the POSIX separator. -/
def pathJoin (d f : PyStr) : PyStr := d ++ "/".toList ++ f

/-- The executable-search loop shared by `start_tor` and `is_tor_available`:
`fs p` abstracts `os.path.isfile(p) and os.access(p, os.X_OK)`. -/
def findTorExecutable (tor_dir : PyStr) (fs : PyStr → Bool) : Option PyStr :=
  if fs (pathJoin tor_dir "tor".toList) then some (pathJoin tor_dir "tor".toList)
  else if fs (pathJoin tor_dir "tor.exe".toList) then some (pathJoin tor_dir "tor.exe".toList)
  else none

/-- `ConfigManager.is_tor_available`. -/
def is_tor_available (cfg : Config) (fs : PyStr → Bool) : Bool :=
  if cfg.tor_directory = ([] : PyStr) then false
  else (findTorExecutable cfg.tor_directory fs).isSome

/-! ### TorManager -/

/-- `TorManager` runtime state: the `is_running` flag and the process
handle (`none` = no handle; `some alive` records whether `poll()` would
report the process still alive). -/
structure TorState where
  is_running : Bool
  tor_process : Option Bool
deriving DecidableEq

/-- Result of `start_tor`: the returned boolean, the updated state, and
the `tor_status_changed` signals emitted (running flag, message). -/
structure TorResult where
  ok : Bool
  tor : TorState
  emitted : List (Bool × PyStr)
deriving DecidableEq

/-- `TorManager.stop_tor`: releases the handle, clears `is_running`, and
emits a stopped notification. -/
def stop_tor (_ts : TorState) : TorState × List (Bool × PyStr) :=
  (({ is_running := false, tor_process := none } : TorState),
   [(false, "Tor stopped".toList)])

/-- `TorManager.start_tor`.  `fs` abstracts the filesystem probe and
`connectOk` the outcome of `_wait_for_tor_connection` (the 30-second
SOCKS-port poll); the spawn itself is modelled as always yielding a live
handle, the exception path being outside the modelled behaviours. -/
def start_tor (ts : TorState) (cfg : Config) (fs : PyStr → Bool) (connectOk : Bool) :
    TorResult :=
  if ts.is_running then { ok := true, tor := ts, emitted := [] }
  else if cfg.tor_directory = ([] : PyStr) then
    { ok := false, tor := ts, emitted := [(false, "Tor directory not configured".toList)] }
  else
    match findTorExecutable cfg.tor_directory fs with
    | none =>
      { ok := false, tor := ts, emitted := [(false, "Tor executable not found".toList)] }
    | some _ =>
      let spawned : TorState := { ts with tor_process := some true }
      if connectOk then
        { ok := true, tor := { spawned with is_running := true },
          emitted := [(true, "Tor is running".toList)] }
      else
        let stopped := stop_tor spawned
        { ok := false, tor := stopped.1,
          emitted := stopped.2 ++ [(false, "Tor failed to start".toList)] }

/-- `TorManager.is_tor_running`: the tracked flag and the handle's
liveness check (`poll() is None`). -/
def is_tor_running (ts : TorState) : Bool :=
  ts.is_running && (match ts.tor_process with | some alive => alive | none => false)

/-! ### CyberBrowser window state -/

/-- One entry of `self.tab_data`: `web_view` is `none` until the tab is
promoted, afterwards `some url` records the URL loaded in the live view;
`title` is the stored `tab_info['title']`. -/
structure TabInfo where
  web_view : Option PyStr
  title : PyStr
deriving DecidableEq

/-- The window state touched by the modelled handlers: the tab bar texts
(`self.tab_bar`, including the trailing `"+"` tab), the position→identity
dict `self.tab_id_mapping`, `self.next_tab_id`, the tab bar's current
index, the stack's current widget (by owning tab identity), `self.tab_data`,
the configuration, the Tor state, and the emitted status signals. -/
structure AppState where
  tab_bar : List PyStr
  tab_id_mapping : List (Int × Nat)
  next_tab_id : Nat
  current_index : Int
  current_widget : Option Nat
  tab_data : List (Nat × TabInfo)
  config : Config
  tor : TorState
  emitted : List (Bool × PyStr)
deriving DecidableEq

/-- The state after `__init__` (tab bar `["Home", "+"]`, signals connected
after the tabs are added) followed by `create_home_tab`. -/
def initialState : AppState :=
  { tab_bar := ["Home".toList, "+".toList],
    tab_id_mapping := [(0, 0)],
    next_tab_id := 1,
    current_index := 0,
    current_widget := some 0,
    tab_data := [(0, { web_view := none, title := "Home".toList })],
    config := defaultConfig,
    tor := { is_running := false, tor_process := none },
    emitted := [] }

/-- `CyberBrowser.create_new_tab`: inserts a tab at `count() - 1` (just
before the `"+"` tab), rebuilds the mapping shifting keys ≥ the insertion
index up by one, registers a fresh home tab, and selects the new index.
(The `currentChanged` signal that `setCurrentIndex` would fire in Qt is
not re-dispatched here; the selection itself is recorded.) -/
def create_new_tab (st : AppState) : AppState :=
  let new_tab_index : Int := (st.tab_bar.length : Int) - 1
  let tab_id := st.next_tab_id
  let new_mapping :=
    st.tab_id_mapping.foldl
      (fun acc kv =>
        if kv.1 ≥ new_tab_index then ainsert acc (kv.1 + 1) kv.2
        else ainsert acc kv.1 kv.2) []
  { st with
    tab_bar := listInsertAt st.tab_bar new_tab_index "New Tab".toList,
    tab_id_mapping := ainsert new_mapping new_tab_index tab_id,
    next_tab_id := tab_id + 1,
    tab_data := ainsert st.tab_data tab_id { web_view := none, title := "New Tab".toList },
    current_index := new_tab_index }

/-- `CyberBrowser.on_tab_moved`: reads the moved identity (`none` models
Python's `KeyError` on a missing key), deletes it, rebuilds the mapping
from the remaining entries in sorted key order, and reinserts the moved
identity at `to_index`.  (Qt itself has already reordered the visual tabs
when this handler runs; the handler only rewrites the dict.) -/
def on_tab_moved (st : AppState) (from_index to_index : Int) : Option AppState :=
  match alookup st.tab_id_mapping from_index with
  | none => none
  | some moved_tab_id =>
    let remaining := aerase st.tab_id_mapping from_index
    let new_mapping :=
      (sortByKey remaining).foldl
        (fun acc kv =>
          if from_index < to_index then
            if kv.1 ≤ to_index then ainsert acc (kv.1 - 1) kv.2
            else ainsert acc kv.1 kv.2
          else
            if kv.1 ≥ to_index then ainsert acc (kv.1 + 1) kv.2
            else ainsert acc kv.1 kv.2) []
    some { st with tab_id_mapping := ainsert new_mapping to_index moved_tab_id }

/-- `CyberBrowser.on_tab_changed`: in-range indices only; the `"+"` tab
text triggers `create_new_tab`, any other index resolves through the
mapping and makes that tab's widget current. -/
def on_tab_changed (st : AppState) (index : Int) : AppState :=
  if 0 ≤ index ∧ index < (st.tab_bar.length : Int) then
    match listGetAt st.tab_bar index with
    | none => st
    | some tab_text =>
      if tab_text = "+".toList then create_new_tab st
      else
        match alookup st.tab_id_mapping index with
        | none => st
        | some tab_id =>
          match alookup st.tab_data tab_id with
          | none => st
          | some _ => { st with current_widget := some tab_id }
  else st

/-- The display-title truncation of `update_tab_title`:
`title[:12] + "..." if len(title) > 15 else title`. -/
def display_title (title : PyStr) : PyStr :=
  if 15 < title.length then title.take 12 ++ "...".toList else title

/-- `CyberBrowser.update_tab_title`: writes the truncated title at the
first position mapped to `tab_id`, a no-op when no position maps to it. -/
def update_tab_title (st : AppState) (tab_id : Nat) (title : PyStr) : AppState :=
  match findPosition st.tab_id_mapping tab_id with
  | none => st
  | some tab_index =>
    { st with tab_bar := listSetAt st.tab_bar tab_index (display_title title) }

/-- The URL construction of `perform_search` (lines 1567-1575 together
with `get_search_url`). -/
def resolve_url (cfg : Config) (selected_engine query : PyStr) : PyStr :=
  if containsSub ".".toList query && !(containsSub " ".toList query)
      && !(pyStartswith "http".toList query) then
    "http://".toList ++ query
  else if pyStartswith "http".toList query then query
  else get_search_url cfg selected_engine query

/-- The `search_title` construction of `perform_search`; `none` models the
`IndexError` Python raises for a query starting with `http` that contains
a `/` but has fewer than three `/`-separated parts. -/
def resolve_title (selected_engine query : PyStr) : Option PyStr :=
  if containsSub ".".toList query && !(containsSub " ".toList query)
      && !(pyStartswith "http".toList query) then
    some (pyCapitalize ((pySplit '.' query).headD []))
  else if pyStartswith "http".toList query then
    if containsSub "/".toList query then (pySplit '/' query).get? 2 else some query
  else
    some (selected_engine ++ ": ".toList ++ query.take 20 ++ "...".toList)

/-- The tail of `perform_search` after the Tor gating: resolves the URL
and title, then either promotes the tab (web_view was `None`: a browser
view replaces the home widget and becomes current) or reloads the existing
view.  The two branches differ only in view-object management, which the
state does not track. -/
def perform_search_load (st : AppState) (tab_id : Nat) (query selected_engine : PyStr) :
    Option AppState :=
  match alookup st.tab_data tab_id with
  | none => some st
  | some info =>
    let url := resolve_url st.config selected_engine query
    match resolve_title selected_engine query with
    | none => none
    | some search_title =>
      match info.web_view with
      | none =>
        let st1 := { st with
          tab_data := ainsert st.tab_data tab_id { web_view := some url, title := search_title },
          current_widget := some tab_id }
        some (update_tab_title st1 tab_id search_title)
      | some _ =>
        let st1 := { st with
          tab_data := ainsert st.tab_data tab_id { web_view := some url, title := search_title },
          current_widget := some tab_id }
        some (update_tab_title st1 tab_id search_title)

/-- `CyberBrowser.perform_search`.  `inputText` is the text of the home
widget's search box and `selected_engine` its combo selection; only the
un-promoted home widget carries a `search_input` attribute, so the
`hasattr` guard is the `web_view` test.  `userReplyYes` is the reply to
the `.onion` enable-Tor question; `fs` and `connectOk` feed `start_tor`.
`none` models an uncaught Python exception. -/
def perform_search (st : AppState) (tab_id : Nat) (inputText selected_engine : PyStr)
    (userReplyYes : Bool) (fs : PyStr → Bool) (connectOk : Bool) : Option AppState :=
  match alookup st.tab_data tab_id with
  | none => some st
  | some info =>
    match info.web_view with
    | some _ => some st
    | none =>
      let query := pyStrip inputText
      if query = [] then some st
      else
        let torEnabled := st.config.enable_tor
        let torRunning := is_tor_running st.tor
        if torEnabled && !torRunning then some st
        else if containsSub ".onion".toList query && !(torEnabled && torRunning) then
          if userReplyYes then
            if is_tor_available st.config fs then
              let stA := { st with config := { st.config with enable_tor := true } }
              let r := start_tor stA.tor stA.config fs connectOk
              let stB := { stA with tor := r.tor, emitted := stA.emitted ++ r.emitted }
              if r.ok then perform_search_load stB tab_id query selected_engine
              else some stB
            else some st
          else some st
        else perform_search_load st tab_id query selected_engine

/-- `CyberBrowser.toggle_tor`.  The proxy-profile plumbing
(`setup_tor_proxy` / `remove_tor_proxy`) has no modelled state. -/
def toggle_tor (st : AppState) (fs : PyStr → Bool) (connectOk : Bool) : AppState :=
  if !(is_tor_available st.config fs) then st
  else
    let newTor := !st.config.enable_tor
    let st1 := { st with config := { st.config with enable_tor := newTor } }
    if newTor then
      let r := start_tor st1.tor st1.config fs connectOk
      if r.ok then { st1 with tor := r.tor, emitted := st1.emitted ++ r.emitted }
      else
        { st1 with tor := r.tor, emitted := st1.emitted ++ r.emitted,
                   config := { st1.config with enable_tor := false } }
    else
      let stopped := stop_tor st1.tor
      { st1 with tor := stopped.1, emitted := st1.emitted ++ stopped.2 }

/-! ### Association-list lemmas -/

theorem alookup_ainsert_self {α β : Type} [DecidableEq α] (m : List (α × β)) (k : α) (v : β) :
    alookup (ainsert m k v) k = some v := by
  induction m with
  | nil => simp [ainsert, alookup]
  | cons kv rest ih =>
    obtain ⟨k', v'⟩ := kv
    by_cases h : k' = k
    · subst h; simp [ainsert, alookup]
    · simp [ainsert, alookup, h, ih]

theorem alookup_ainsert_ne {α β : Type} [DecidableEq α] (m : List (α × β)) (k k' : α) (v : β)
    (h : k' ≠ k) : alookup (ainsert m k v) k' = alookup m k' := by
  induction m with
  | nil => simp [ainsert, alookup, Ne.symm h]
  | cons kv rest ih =>
    obtain ⟨k0, v0⟩ := kv
    by_cases h0 : k0 = k
    · subst h0; simp [ainsert, alookup, Ne.symm h]
    · by_cases h1 : k0 = k'
      · subst h1; simp [ainsert, alookup, h0]
      · simp [ainsert, alookup, h0, h1, ih]

theorem ainsert_eq_append {α β : Type} [DecidableEq α] (m : List (α × β)) (k : α) (v : β)
    (h : alookup m k = none) : ainsert m k v = m ++ [(k, v)] := by
  induction m with
  | nil => simp [ainsert]
  | cons kv rest ih =>
    obtain ⟨k0, v0⟩ := kv
    by_cases h0 : k0 = k
    · subst h0; simp [alookup] at h
    · simp only [alookup, if_neg h0] at h
      simp [ainsert, h0, ih h]

theorem alookup_append_left {α β : Type} [DecidableEq α] (l₁ l₂ : List (α × β)) (k : α) (v : β)
    (h : alookup l₁ k = some v) : alookup (l₁ ++ l₂) k = some v := by
  induction l₁ with
  | nil => simp [alookup] at h
  | cons kv rest ih =>
    obtain ⟨k0, v0⟩ := kv
    by_cases h0 : k0 = k
    · subst h0
      simp only [alookup, if_pos rfl] at h ⊢
      simp_all [alookup]
    · simp only [alookup, if_neg h0] at h
      simp [alookup, h0, ih h]

theorem alookup_append_right {α β : Type} [DecidableEq α] (l₁ l₂ : List (α × β)) (k : α)
    (h : alookup l₁ k = none) : alookup (l₁ ++ l₂) k = alookup l₂ k := by
  induction l₁ with
  | nil => simp
  | cons kv rest ih =>
    obtain ⟨k0, v0⟩ := kv
    by_cases h0 : k0 = k
    · subst h0; simp [alookup] at h
    · simp only [alookup, if_neg h0] at h
      simp [alookup, h0, ih h]

theorem alookup_none_of_lt {β : Type} (m : List (Nat × β)) (t : Nat)
    (h : ∀ kv ∈ m, kv.1 < t) : alookup m t = none := by
  induction m with
  | nil => rfl
  | cons kv rest ih =>
    obtain ⟨k0, v0⟩ := kv
    have hk : k0 < t := h (k0, v0) (by simp)
    have hne : k0 ≠ t := by omega
    simp only [alookup, if_neg hne]
    exact ih (fun kv hm => h kv (by simp [hm]))

theorem alookup_map_shift {β : Type} (σ : Int → Int)
    (hinj : ∀ a b : Int, σ a = σ b → a = b) (m : List (Int × β)) (k : Int) :
    alookup (m.map (fun kv => (σ kv.1, kv.2))) (σ k) = alookup m k := by
  induction m with
  | nil => rfl
  | cons kv rest ih =>
    obtain ⟨k0, v0⟩ := kv
    by_cases h0 : k0 = k
    · subst h0; simp [alookup]
    · have : σ k0 ≠ σ k := fun hh => h0 (hinj _ _ hh)
      simp [alookup, h0, this, ih]

theorem alookup_map_not_target {β : Type} (σ : Int → Int) (m : List (Int × β)) (t : Int)
    (h : ∀ kv ∈ m, σ kv.1 ≠ t) : alookup (m.map (fun kv => (σ kv.1, kv.2))) t = none := by
  induction m with
  | nil => rfl
  | cons kv rest ih =>
    obtain ⟨k0, v0⟩ := kv
    have hne : σ k0 ≠ t := h (k0, v0) (by simp)
    simp only [List.map_cons, alookup, if_neg hne]
    exact ih (fun kv hm => h kv (by simp [hm]))

theorem foldl_ainsert_keyed {β : Type} (σ : Int → Int) :
    ∀ (m acc : List (Int × β)),
      (∀ kv ∈ m, alookup acc (σ kv.1) = none) →
      (m.map (fun kv => σ kv.1)).Nodup →
      m.foldl (fun a kv => ainsert a (σ kv.1) kv.2) acc
        = acc ++ m.map (fun kv => (σ kv.1, kv.2)) := by
  intro m
  induction m with
  | nil => intro acc _ _; simp
  | cons kv rest ih =>
    intro acc hfree hnd
    obtain ⟨k0, v0⟩ := kv
    have hfree0 : alookup acc (σ k0) = none := hfree (k0, v0) (by simp)
    have hstep : ainsert acc (σ k0) v0 = acc ++ [(σ k0, v0)] := ainsert_eq_append _ _ _ hfree0
    simp only [List.foldl_cons]
    rw [hstep]
    simp only [List.map_cons, List.nodup_cons] at hnd
    have hfree' : ∀ kv ∈ rest, alookup (acc ++ [(σ k0, v0)]) (σ kv.1) = none := by
      intro kv hm
      have h1 : alookup acc (σ kv.1) = none := hfree kv (by simp [hm])
      have h2 : σ kv.1 ≠ σ k0 := by
        intro hh
        exact hnd.1 (by rw [← hh]; exact List.mem_map_of_mem _ hm)
      rw [alookup_append_right _ _ _ h1]
      simp [alookup, Ne.symm h2]
    rw [ih (acc ++ [(σ k0, v0)]) hfree' hnd.2]
    simp

theorem foldl_if_hoist (n : Int) {β : Type} :
    ∀ (m : List (Int × β)) (acc : List (Int × β)),
      m.foldl (fun acc kv =>
        if kv.1 ≥ n then ainsert acc (kv.1 + 1) kv.2 else ainsert acc kv.1 kv.2) acc
      = m.foldl (fun acc kv =>
          ainsert acc (if n ≤ kv.1 then kv.1 + 1 else kv.1) kv.2) acc := by
  intro m
  induction m with
  | nil => intro acc; rfl
  | cons kv rest ih =>
    intro acc
    simp only [List.foldl_cons]
    rw [ih]
    congr 1
    by_cases h : n ≤ kv.1
    · simp [ge_iff_le, h]
    · simp [ge_iff_le, h]

theorem insertAtNat_before_last {α : Type} :
    ∀ (l : List α) (y x : α), insertAtNat (l ++ [y]) l.length x = l ++ [x, y] := by
  intro l
  induction l with
  | nil => intro y x; rfl
  | cons a l ih => intro y x; simp [insertAtNat, ih y x]

theorem update_tab_title_tab_data (st : AppState) (tid : Nat) (t : PyStr) :
    (update_tab_title st tid t).tab_data = st.tab_data := by
  unfold update_tab_title
  cases findPosition st.tab_id_mapping tid <;> rfl

theorem update_tab_title_config (st : AppState) (tid : Nat) (t : PyStr) :
    (update_tab_title st tid t).config = st.config := by
  unfold update_tab_title
  cases findPosition st.tab_id_mapping tid <;> rfl

/-- The shift function applied to mapping keys by `create_new_tab`. -/
def createShift (n : Int) (k : Int) : Int := if n ≤ k then k + 1 else k

theorem createShift_inj (n : Int) : ∀ a b : Int, createShift n a = createShift n b → a = b := by
  intro a b
  unfold createShift
  split <;> split <;> omega

/-- Characterisation of the mapping rebuilt by `create_new_tab`: with
distinct keys (a Python dict invariant), the rebuild loop shifts every key
≥ the insertion index up by one and appends the new tab at that index. -/
theorem create_new_tab_mapping (st : AppState)
    (hnodup : (st.tab_id_mapping.map Prod.fst).Nodup) :
    (create_new_tab st).tab_id_mapping
      = st.tab_id_mapping.map
          (fun kv => (createShift ((st.tab_bar.length : Int) - 1) kv.1, kv.2))
        ++ [(((st.tab_bar.length : Int) - 1), st.next_tab_id)] := by
  have hσinj := createShift_inj ((st.tab_bar.length : Int) - 1)
  have hmapeq : st.tab_id_mapping.map (fun kv => createShift ((st.tab_bar.length : Int) - 1) kv.1)
      = (st.tab_id_mapping.map Prod.fst).map (createShift ((st.tab_bar.length : Int) - 1)) := by
    rw [List.map_map]
    rfl
  have hnd : (st.tab_id_mapping.map
      (fun kv => createShift ((st.tab_bar.length : Int) - 1) kv.1)).Nodup := by
    rw [hmapeq]
    exact hnodup.map (fun a b => hσinj a b)
  have hfold := foldl_ainsert_keyed (createShift ((st.tab_bar.length : Int) - 1))
    st.tab_id_mapping [] (fun kv _ => rfl) hnd
  have hnotmem : alookup
      (st.tab_id_mapping.map
        (fun kv => (createShift ((st.tab_bar.length : Int) - 1) kv.1, kv.2)))
      ((st.tab_bar.length : Int) - 1) = none := by
    apply alookup_map_not_target
    intro kv _
    unfold createShift
    split <;> omega
  show ainsert
      (st.tab_id_mapping.foldl
        (fun acc kv =>
          if kv.1 ≥ (st.tab_bar.length : Int) - 1 then ainsert acc (kv.1 + 1) kv.2
          else ainsert acc kv.1 kv.2) [])
      ((st.tab_bar.length : Int) - 1) st.next_tab_id = _
  rw [foldl_if_hoist]
  have hbody : (fun (acc : List (Int × Nat)) (kv : Int × Nat) =>
      ainsert acc (if (st.tab_bar.length : Int) - 1 ≤ kv.1 then kv.1 + 1 else kv.1) kv.2)
      = (fun acc kv => ainsert acc (createShift ((st.tab_bar.length : Int) - 1) kv.1) kv.2) := by
    rfl
  rw [hbody, hfold, List.nil_append]
  exact ainsert_eq_append _ _ _ hnotmem

theorem alookup_append_single_ne {α β : Type} [DecidableEq α] (l : List (α × β)) (t k : α)
    (v : β) (h : k ≠ t) : alookup (l ++ [(t, v)]) k = alookup l k := by
  induction l with
  | nil => simp [alookup, Ne.symm h]
  | cons kv rest ih =>
    obtain ⟨k0, v0⟩ := kv
    by_cases h0 : k0 = k
    · subst h0; simp [alookup]
    · simp [alookup, h0, ih]

/-! ### Claims -/

/-- C10: for an engine name absent from the configured `search_engines`
mapping, `get_search_url` does not fail but falls back to the built-in
Google template, returning `https://www.google.com/search?q=` followed by
the query with every space replaced by `+`. -/
theorem c10_get_search_url_fallback (cfg : Config) (engine_name query : PyStr)
    (h : alookup cfg.search_engines engine_name = none) :
    get_search_url cfg engine_name query
      = "https://www.google.com/search?q=".toList ++ replaceSpaces query := by
  unfold get_search_url
  rw [h]

/-- Witness for C10 at the default configuration and an unknown engine. -/
theorem c10_witness :
    alookup defaultConfig.search_engines "NoSuchEngine".toList = none
    ∧ get_search_url defaultConfig "NoSuchEngine".toList "openai gpt".toList
        = "https://www.google.com/search?q=openai+gpt".toList :=
  ⟨by decide,
   (c10_get_search_url_fallback defaultConfig "NoSuchEngine".toList "openai gpt".toList
      (by decide)).trans (by decide)⟩

/-- C5: the resolved URL of `perform_search` is `http://` prepended to the
query when it contains a dot, no space, and does not start with `http`;
the query verbatim when it starts with `http`; and otherwise the selected
engine's template with the placeholder replaced by the query with spaces
encoded as `+`. -/
theorem c5_resolve_url_spec (cfg : Config) (selected_engine template query : PyStr)
    (hq : query ≠ [])
    (heng : alookup cfg.search_engines selected_engine = some template) :
    (containsSub ".".toList query = true → containsSub " ".toList query = false →
      pyStartswith "http".toList query = false →
      resolve_url cfg selected_engine query = "http://".toList ++ query)
    ∧ (pyStartswith "http".toList query = true →
      resolve_url cfg selected_engine query = query)
    ∧ ((containsSub ".".toList query = false ∨ containsSub " ".toList query = true) →
      pyStartswith "http".toList query = false →
      resolve_url cfg selected_engine query = pyFormat1 (replaceSpaces query) template) := by
  refine ⟨?_, ?_, ?_⟩
  · intro h1 h2 h3
    unfold resolve_url
    rw [h1, h2, h3]
    simp
  · intro h1
    unfold resolve_url
    rw [h1]
    simp
  · intro h1 h2
    unfold resolve_url
    rw [h2]
    rcases h1 with h | h <;> rw [h] <;> simp [get_search_url, heng]

/-- The engine configuration of the C5 scenario: template
`https://x.com/s?q={}` under the name `X`. -/
def scenarioConfig : Config :=
  { enable_tor := false, tor_directory := [],
    search_engines := [("X".toList, "https://x.com/s?q=".toList ++ [lbrace, rbrace])] }

/-- Witness for C5: the spec scenario, query `"openai gpt"` against the
template `https://x.com/s?q={}` resolves to `https://x.com/s?q=openai+gpt`. -/
theorem c5_witness :
    ("openai gpt".toList ≠ ([] : PyStr))
    ∧ resolve_url scenarioConfig "X".toList "openai gpt".toList
        = "https://x.com/s?q=openai+gpt".toList :=
  ⟨by decide,
   ((c5_resolve_url_spec scenarioConfig "X".toList
        ("https://x.com/s?q=".toList ++ [lbrace, rbrace]) "openai gpt".toList
        (by decide) (by decide)).2.2
      (Or.inr (by decide)) (by decide)).trans (by decide)⟩

/-- C8: with the Tor manager not running, `start_tor` with an unconfigured
directory fails leaving `is_running` false and emits a status notification
with the running flag and a human-readable reason; likewise when the
directory is configured but neither platform-specific binary is present
and executable there. -/
theorem c8_start_tor_failures (ts : TorState) (cfg : Config) (fs : PyStr → Bool)
    (connectOk : Bool) (hrun : ts.is_running = false) :
    (cfg.tor_directory = ([] : PyStr) →
      start_tor ts cfg fs connectOk
        = { ok := false, tor := ts,
            emitted := [(false, "Tor directory not configured".toList)] }
      ∧ (start_tor ts cfg fs connectOk).tor.is_running = false)
    ∧ (cfg.tor_directory ≠ ([] : PyStr) →
      fs (pathJoin cfg.tor_directory "tor".toList) = false →
      fs (pathJoin cfg.tor_directory "tor.exe".toList) = false →
      start_tor ts cfg fs connectOk
        = { ok := false, tor := ts,
            emitted := [(false, "Tor executable not found".toList)] }
      ∧ (start_tor ts cfg fs connectOk).tor.is_running = false) := by
  constructor
  · intro h1
    have heq : start_tor ts cfg fs connectOk
        = { ok := false, tor := ts,
            emitted := [(false, "Tor directory not configured".toList)] } := by
      simp [start_tor, hrun, h1]
    exact ⟨heq, by rw [heq]; exact hrun⟩
  · intro h1 h2 h3
    have heq : start_tor ts cfg fs connectOk
        = { ok := false, tor := ts,
            emitted := [(false, "Tor executable not found".toList)] } := by
      unfold start_tor findTorExecutable
      rw [hrun, h2, h3]
      simp [h1]
    exact ⟨heq, by rw [heq]; exact hrun⟩

/-- Witness for C8: both failure paths at a concrete non-running state. -/
theorem c8_witness :
    (({ is_running := false, tor_process := none } : TorState).is_running = false)
    ∧ start_tor { is_running := false, tor_process := none } defaultConfig
        (fun _ => false) true
        = { ok := false, tor := { is_running := false, tor_process := none },
            emitted := [(false, "Tor directory not configured".toList)] }
    ∧ start_tor { is_running := false, tor_process := none }
        { defaultConfig with tor_directory := "d".toList } (fun _ => false) true
        = { ok := false, tor := { is_running := false, tor_process := none },
            emitted := [(false, "Tor executable not found".toList)] } :=
  ⟨rfl,
   ((c8_start_tor_failures { is_running := false, tor_process := none } defaultConfig
      (fun _ => false) true rfl).1 rfl).1,
   ((c8_start_tor_failures { is_running := false, tor_process := none }
      { defaultConfig with tor_directory := "d".toList } (fun _ => false) true rfl).2
      (by decide) rfl rfl).1⟩

/-- C6: `update_tab_title` writes the truncated title at whichever
position currently maps to the identity and is a no-op when none does;
the displayed title is the first 12 characters plus an ellipsis when the
title exceeds 15 characters, and the unmodified title otherwise. -/
theorem c6_update_tab_title_spec (st : AppState) (tid : Nat) (title : PyStr) :
    (findPosition st.tab_id_mapping tid = none → update_tab_title st tid title = st)
    ∧ (∀ p : Int, findPosition st.tab_id_mapping tid = some p →
        update_tab_title st tid title
          = { st with tab_bar := listSetAt st.tab_bar p (display_title title) })
    ∧ (15 < title.length →
        display_title title = title.take 12 ++ "...".toList ∧ (title.take 12).length = 12)
    ∧ (title.length ≤ 15 → display_title title = title) := by
  refine ⟨?_, ?_, ?_, ?_⟩
  · intro h
    unfold update_tab_title
    rw [h]
  · intro p h
    unfold update_tab_title
    rw [h]
  · intro h
    refine ⟨by simp [display_title, h], ?_⟩
    simp [List.length_take]
    omega
  · intro h
    unfold display_title
    rw [if_neg (by omega)]

/-- Witness for C6: a 16-character title is truncated to its first 12
characters plus the ellipsis at the mapped position; a short title is
unchanged. -/
theorem c6_witness :
    (findPosition initialState.tab_id_mapping 0 = some 0)
    ∧ update_tab_title initialState 0 "abcdefghijklmnop".toList
        = { initialState with
            tab_bar := listSetAt initialState.tab_bar 0
              (display_title "abcdefghijklmnop".toList) }
    ∧ display_title "abcdefghijklmnop".toList = "abcdefghijkl...".toList
    ∧ display_title "Home".toList = "Home".toList :=
  ⟨rfl,
   (c6_update_tab_title_spec initialState 0 "abcdefghijklmnop".toList).2.1 0 rfl,
   (((c6_update_tab_title_spec initialState 0 "abcdefghijklmnop".toList).2.2.1
      (by decide)).1).trans (by decide),
   (c6_update_tab_title_spec initialState 0 "Home".toList).2.2.2 (by decide)⟩

/-- C7: `on_tab_changed` on an in-range position showing the reserved
`"+"` affordance text performs an implicit `create_new_tab` (a new tab is
created, registered just before the affordance, and selected; no error is
raised), while any other mapped position makes that tab's widget the
current one. -/
theorem c7_on_tab_changed_spec (st : AppState) (index : Int)
    (h0 : 0 ≤ index) (h1 : index < (st.tab_bar.length : Int)) :
    (listGetAt st.tab_bar index = some ("+".toList) →
      on_tab_changed st index = create_new_tab st
      ∧ alookup (create_new_tab st).tab_id_mapping ((st.tab_bar.length : Int) - 1)
          = some st.next_tab_id
      ∧ (create_new_tab st).next_tab_id = st.next_tab_id + 1
      ∧ (create_new_tab st).current_index = (st.tab_bar.length : Int) - 1)
    ∧ (∀ txt tid info, listGetAt st.tab_bar index = some txt → txt ≠ "+".toList →
      alookup st.tab_id_mapping index = some tid →
      alookup st.tab_data tid = some info →
      on_tab_changed st index = { st with current_widget := some tid }) := by
  constructor
  · intro hplus
    refine ⟨?_, ?_, rfl, rfl⟩
    · unfold on_tab_changed
      rw [if_pos ⟨h0, h1⟩, hplus]
      simp
    · exact alookup_ainsert_self _ _ _
  · intro txt tid info htxt hne hmap hdata
    unfold on_tab_changed
    rw [if_pos ⟨h0, h1⟩, htxt]
    simp only [if_neg hne, hmap, hdata]

/-- Witness for C7: at the initial state, selecting position 1 (the `"+"`
tab) creates and selects a new tab; selecting position 0 activates the
home tab. -/
theorem c7_witness :
    (on_tab_changed initialState 1 = create_new_tab initialState
      ∧ alookup (create_new_tab initialState).tab_id_mapping
          ((initialState.tab_bar.length : Int) - 1) = some initialState.next_tab_id
      ∧ (create_new_tab initialState).current_index
          = (initialState.tab_bar.length : Int) - 1)
    ∧ on_tab_changed initialState 0 = { initialState with current_widget := some 0 } := by
  have h := c7_on_tab_changed_spec initialState 1 (by decide) (by decide)
  have h2 := c7_on_tab_changed_spec initialState 0 (by decide) (by decide)
  refine ⟨⟨(h.1 (by decide)).1, (h.1 (by decide)).2.1, (h.1 (by decide)).2.2.2⟩, ?_⟩
  exact h2.2 "Home".toList 0 { web_view := none, title := "Home".toList }
    (by decide) (by decide) rfl rfl

/-- C3: from any dict-valid registry state (distinct mapping keys, all
registered identities below `next_tab_id`, the affordance tab trailing),
`create_new_tab` assigns the identity `next_tab_id` (monotone counter, so
strictly above every previously assigned identity and never reused),
inserts the new tab at the position immediately before the trailing `"+"`
affordance, shifts every mapped position ≥ the insertion point up by one
leaving lower positions unchanged, and selects the new tab. -/
theorem c3_create_new_tab_spec (st : AppState) (front : List PyStr)
    (hnodup : (st.tab_id_mapping.map Prod.fst).Nodup)
    (hids : ∀ kv ∈ st.tab_id_mapping, kv.2 < st.next_tab_id)
    (hdata : ∀ kv ∈ st.tab_data, kv.1 < st.next_tab_id)
    (hbar : st.tab_bar = front ++ [("+".toList : PyStr)]) :
    (create_new_tab st).next_tab_id = st.next_tab_id + 1
    ∧ alookup (create_new_tab st).tab_id_mapping ((st.tab_bar.length : Int) - 1)
        = some st.next_tab_id
    ∧ (create_new_tab st).tab_bar = front ++ ["New Tab".toList, "+".toList]
    ∧ (∀ k : Int, k < (st.tab_bar.length : Int) - 1 →
        alookup (create_new_tab st).tab_id_mapping k = alookup st.tab_id_mapping k)
    ∧ (∀ k : Int, (st.tab_bar.length : Int) - 1 ≤ k →
        alookup (create_new_tab st).tab_id_mapping (k + 1) = alookup st.tab_id_mapping k)
    ∧ (create_new_tab st).current_index = (st.tab_bar.length : Int) - 1
    ∧ (∀ kv ∈ (create_new_tab st).tab_id_mapping, kv.2 < (create_new_tab st).next_tab_id)
    ∧ (∀ kv ∈ (create_new_tab st).tab_data, kv.1 < (create_new_tab st).next_tab_id) := by
  have hchar := create_new_tab_mapping st hnodup
  refine ⟨rfl, ?_, ?_, ?_, ?_, rfl, ?_, ?_⟩
  · exact alookup_ainsert_self _ _ _
  · show listInsertAt st.tab_bar ((st.tab_bar.length : Int) - 1) "New Tab".toList
      = front ++ ["New Tab".toList, "+".toList]
    rw [hbar]
    unfold listInsertAt
    rw [if_pos (by simp [List.length_append]; try omega)]
    have htn : (((front ++ [("+".toList : PyStr)]).length : Int) - 1).toNat
        = front.length := by
      simp [List.length_append]
    rw [htn]
    exact insertAtNat_before_last front _ _
  · intro k hk
    rw [hchar, alookup_append_single_ne _ _ _ _ (by omega)]
    have hσ : createShift ((st.tab_bar.length : Int) - 1) k = k := by
      unfold createShift
      rw [if_neg (by omega)]
    conv_lhs => rw [← hσ]
    exact alookup_map_shift _ (createShift_inj _) _ _
  · intro k hk
    rw [hchar, alookup_append_single_ne _ _ _ _ (by omega)]
    have hσ : createShift ((st.tab_bar.length : Int) - 1) k = k + 1 := by
      unfold createShift
      rw [if_pos hk]
    conv_lhs => rw [← hσ]
    exact alookup_map_shift _ (createShift_inj _) _ _
  · intro kv hm
    rw [hchar] at hm
    rcases List.mem_append.mp hm with hmem | hmem
    · obtain ⟨orig, horig, heq⟩ := List.mem_map.mp hmem
      have hlt := hids orig horig
      have h2 : kv.2 = orig.2 := by rw [← heq]
      show kv.2 < st.next_tab_id + 1
      omega
    · have : kv = (((st.tab_bar.length : Int) - 1), st.next_tab_id) := by
        simpa using hmem
      show kv.2 < st.next_tab_id + 1
      rw [this]
      omega
  · intro kv hm
    have hnone : alookup st.tab_data st.next_tab_id = none :=
      alookup_none_of_lt _ _ hdata
    have happ : (create_new_tab st).tab_data
        = st.tab_data
          ++ [(st.next_tab_id, { web_view := none, title := "New Tab".toList })] :=
      ainsert_eq_append _ _ _ hnone
    rw [happ] at hm
    rcases List.mem_append.mp hm with hmem | hmem
    · have hlt := hdata kv hmem
      show kv.1 < st.next_tab_id + 1
      omega
    · have : kv = (st.next_tab_id,
          ({ web_view := none, title := "New Tab".toList } : TabInfo)) := by
        simpa using hmem
      show kv.1 < st.next_tab_id + 1
      rw [this]
      omega

/-- Witness for C3 at the initial single-tab state. -/
theorem c3_witness :
    (create_new_tab initialState).next_tab_id = 2
    ∧ alookup (create_new_tab initialState).tab_id_mapping
        ((initialState.tab_bar.length : Int) - 1) = some initialState.next_tab_id
    ∧ (create_new_tab initialState).tab_bar
        = ["Home".toList, "New Tab".toList, "+".toList]
    ∧ alookup (create_new_tab initialState).tab_id_mapping 0
        = alookup initialState.tab_id_mapping 0
    ∧ (create_new_tab initialState).current_index
        = (initialState.tab_bar.length : Int) - 1 := by
  have h := c3_create_new_tab_spec initialState ["Home".toList]
    (by decide) (by decide) (by decide) rfl
  exact ⟨h.1, h.2.1, h.2.2.1, h.2.2.2.1 0 (by decide), h.2.2.2.2.2.1⟩

/-- C4 counterexample: after promoting tab 0 with query `a.com`, a second
`perform_search` with query `b.com` does not update the live entry's URL
(it stays `http://a.com`), because the promoted widget no longer carries a
search input and the handler returns at that guard; the claim's predicted
updated URL would have been `http://b.com`. -/
theorem c4_counterexample :
    ((perform_search initialState 0 "a.com".toList "Google".toList false
        (fun _ => false) false).bind
      (fun s1 => perform_search s1 0 "b.com".toList "Google".toList false
        (fun _ => false) false)).map
      (fun s2 => (alookup s2.tab_data 0).map (fun info => info.web_view))
    = some (some (some ("http://a.com".toList)))
    ∧ resolve_url initialState.config "Google".toList "b.com".toList
        = "http://b.com".toList
    ∧ ("http://a.com".toList : PyStr) ≠ "http://b.com".toList := by
  refine ⟨rfl, rfl, by decide⟩

/-- C4 (amended): `perform_search` on an unknown identity is a no-op; on
an already-promoted (`Live`) tab it is a complete no-op — the early widget
guard returns before any update, leaving the single `Live` entry with its
original URL and title; and a first promote transitions the tab from
`Home` to `Live` with the resolved URL and title. -/
theorem c4_promote_amended (st : AppState) (tab_id : Nat)
    (inputText selected_engine : PyStr) (userReplyYes : Bool)
    (fs : PyStr → Bool) (connectOk : Bool) :
    (alookup st.tab_data tab_id = none →
      perform_search st tab_id inputText selected_engine userReplyYes fs connectOk
        = some st)
    ∧ (∀ info u, alookup st.tab_data tab_id = some info → info.web_view = some u →
      perform_search st tab_id inputText selected_engine userReplyYes fs connectOk
        = some st)
    ∧ (∀ info t, alookup st.tab_data tab_id = some info → info.web_view = none →
      pyStrip inputText ≠ [] →
      st.config.enable_tor = false →
      containsSub ".onion".toList (pyStrip inputText) = false →
      resolve_title selected_engine (pyStrip inputText) = some t →
      ∃ s', perform_search st tab_id inputText selected_engine userReplyYes fs connectOk
              = some s'
        ∧ alookup s'.tab_data tab_id
            = some { web_view :=
                       some (resolve_url st.config selected_engine (pyStrip inputText)),
                     title := t }) := by
  refine ⟨?_, ?_, ?_⟩
  · intro h
    unfold perform_search
    rw [h]
  · intro info u h4 h5
    unfold perform_search
    simp only [h4, h5]
  · intro info t h4 h5 h6 h1 h7 h8
    have e1 : (st.config.enable_tor && !is_tor_running st.tor) = false := by
      rw [h1]
      rfl
    have e2 : (containsSub ".onion".toList (pyStrip inputText)
        && !(st.config.enable_tor && is_tor_running st.tor)) = false := by
      rw [h7]
      rfl
    have hps : perform_search st tab_id inputText selected_engine userReplyYes fs connectOk
        = perform_search_load st tab_id (pyStrip inputText) selected_engine := by
      unfold perform_search
      simp only [h4, h5, if_neg h6, e1, e2]
      simp
    have hload : perform_search_load st tab_id (pyStrip inputText) selected_engine
        = some (update_tab_title
            { st with
              tab_data := ainsert st.tab_data tab_id
                { web_view :=
                    some (resolve_url st.config selected_engine (pyStrip inputText)),
                  title := t },
              current_widget := some tab_id } tab_id t) := by
      unfold perform_search_load
      simp only [h4, h8, h5]
    refine ⟨_, hps.trans hload, ?_⟩
    rw [update_tab_title_tab_data]
    exact alookup_ainsert_self _ _ _

/-- Witness for C4 (amended): the first promote of the initial home tab
with query `a.com` yields the live entry `http://a.com` titled `A`. -/
theorem c4_witness :
    (alookup initialState.tab_data 0
       = some { web_view := none, title := "Home".toList })
    ∧ resolve_title "Google".toList (pyStrip "a.com".toList) = some ("A".toList)
    ∧ ∃ s', perform_search initialState 0 "a.com".toList "Google".toList false
              (fun _ => false) false = some s'
        ∧ alookup s'.tab_data 0
            = some { web_view := some (resolve_url initialState.config "Google".toList
                       (pyStrip "a.com".toList)),
                     title := "A".toList } := by
  refine ⟨rfl, by decide, ?_⟩
  exact (c4_promote_amended initialState 0 "a.com".toList "Google".toList false
    (fun _ => false) false).2.2 { web_view := none, title := "Home".toList } "A".toList
    rfl rfl (by decide) rfl (by decide) (by decide)

/-- Concrete window state for exercising the Tor start paths: the initial
state with a configured Tor directory. -/
def cState : AppState :=
  { initialState with
    config := { initialState.config with tor_directory := "tordir".toList } }

/-- Filesystem oracle under which `tordir/tor` is the one present,
executable binary. -/
def cFs : PyStr → Bool := fun p => p == "tordir/tor".toList

/-- C9 counterexample: on the search-initiated (`.onion`) start path, a
failed `start_tor` (readiness poll never succeeds) leaves `enable_tor`
set to `true` even though its prior value was `false`; the emitted
signals show the start did fail.  The claim says every code path reverts
the flag on failure. -/
theorem c9_counterexample :
    (perform_search cState 0 "x.onion".toList "Google".toList true cFs false).map
      (fun s => (s.config.enable_tor, s.emitted))
    = some (true, [(false, "Tor stopped".toList), (false, "Tor failed to start".toList)])
    ∧ cState.config.enable_tor = false := by
  refine ⟨rfl, rfl⟩

/-- C9 (amended): when a proxy start fails, the toggle path reverts the
optimistically-set `enable_tor` flag to its prior value `false`, but the
search-initiated (`.onion`) path returns with the flag still `true`. -/
theorem c9_revert_amended (st : AppState) (fs : PyStr → Bool) (tab_id : Nat)
    (inputText selected_engine : PyStr) (info : TabInfo)
    (h1 : st.config.enable_tor = false)
    (h2 : st.tor.is_running = false)
    (h3 : is_tor_available st.config fs = true)
    (h4 : alookup st.tab_data tab_id = some info)
    (h5 : info.web_view = none)
    (h6 : pyStrip inputText ≠ [])
    (h7 : containsSub ".onion".toList (pyStrip inputText) = true) :
    (toggle_tor st fs false).config.enable_tor = false
    ∧ ∃ s', perform_search st tab_id inputText selected_engine true fs false = some s'
        ∧ s'.config.enable_tor = true := by
  have hdir : st.config.tor_directory ≠ ([] : PyStr) := by
    intro hd
    rw [is_tor_available, if_pos hd] at h3
    exact Bool.false_ne_true h3
  have hfind : (findTorExecutable st.config.tor_directory fs).isSome = true := by
    rw [is_tor_available, if_neg hdir] at h3
    exact h3
  obtain ⟨exe, hexe⟩ := Option.isSome_iff_exists.mp hfind
  have hfail : start_tor st.tor { st.config with enable_tor := true } fs false
      = { ok := false, tor := { is_running := false, tor_process := none },
          emitted := [(false, "Tor stopped".toList),
                      (false, "Tor failed to start".toList)] } := by
    unfold start_tor
    rw [h2]
    have hdir' : ({ st.config with enable_tor := true } : Config).tor_directory
        ≠ ([] : PyStr) := hdir
    have hexe' : findTorExecutable
        ({ st.config with enable_tor := true } : Config).tor_directory fs = some exe := hexe
    simp only [Bool.false_eq_true, if_false, if_neg hdir', hexe', stop_tor]
    rfl
  constructor
  · unfold toggle_tor
    rw [h3, h1]
    simp only [Bool.not_true, Bool.not_false, Bool.false_eq_true, if_false, if_true]
    rw [hfail]
    rfl
  · have e1 : (st.config.enable_tor && !is_tor_running st.tor) = false := by
      rw [h1]
      rfl
    have e2 : (containsSub ".onion".toList (pyStrip inputText)
        && !(st.config.enable_tor && is_tor_running st.tor)) = true := by
      rw [h7, h1]
      rfl
    have hps : perform_search st tab_id inputText selected_engine true fs false
        = some { st with
            config := { st.config with enable_tor := true },
            tor := { is_running := false, tor_process := none },
            emitted := st.emitted ++ [(false, "Tor stopped".toList),
                                      (false, "Tor failed to start".toList)] } := by
      unfold perform_search
      simp only [h4, h5, if_neg h6, e1, e2, h3, hfail]
      simp
    exact ⟨_, hps, rfl⟩

/-- Witness for C9 (amended) at the concrete configured state. -/
theorem c9_witness :
    (cState.config.enable_tor = false ∧ is_tor_available cState.config cFs = true)
    ∧ (toggle_tor cState cFs false).config.enable_tor = false
    ∧ ∃ s', perform_search cState 0 "x.onion".toList "Google".toList true cFs false
              = some s'
        ∧ s'.config.enable_tor = true := by
  have h := c9_revert_amended cState cFs 0 "x.onion".toList "Google".toList
    { web_view := none, title := "Home".toList }
    rfl rfl (by decide) rfl rfl (by decide) (by decide)
  exact ⟨⟨rfl, by decide⟩, h.1, h.2⟩

/-- C1: at the reachable three-tab state (two `create_new_tab` calls from
the initial state, identities 0..2 at positions 0..2), the in-range move
`on_tab_moved 1 2` yields a mapping with position 0 unmapped and position
-1 mapped, so the position→identity map is no longer a bijection onto
`{0..N-1}`: the remap loop also decrements keys below `from_index`. -/
theorem c1_move_breaks_bijection :
    (on_tab_moved (create_new_tab (create_new_tab initialState)) 1 2).map
      (fun s => (alookup s.tab_id_mapping 0, alookup s.tab_id_mapping (-1),
                 alookup s.tab_id_mapping 1, alookup s.tab_id_mapping 2))
    = some (none, some 0, some 2, some 1) := by
  rfl

/-- C2: at the same three-tab state, `on_tab_moved 1 2` followed by
`on_tab_moved 2 1` does not restore the original mapping: identity 0,
originally at position 0, ends at position -1 and position 0 is unmapped. -/
theorem c2_move_roundtrip_fails :
    alookup (create_new_tab (create_new_tab initialState)).tab_id_mapping 0 = some 0
    ∧ ((on_tab_moved (create_new_tab (create_new_tab initialState)) 1 2).bind
        (fun s => on_tab_moved s 2 1)).map
        (fun s => (alookup s.tab_id_mapping 0, alookup s.tab_id_mapping (-1)))
      = some (none, some 0) := by
  refine ⟨rfl, rfl⟩
